import Mathlib

/-!
Verification of the View subsystem of honeybee-radiance
(src/honeybee_radiance/view.py) against its natural-language
specification.

The View object is embedded shallowly: option wrappers (NumericOption,
TupleOption, StringOptionJoined from honeybee_radiance_command) are
flattened into plain fields, numeric values become elements of a linear
ordered field (rationals for executable tests, reals where trigonometry
is involved), and Python mutation plus exception raising becomes explicit
state passing: a setter returns the state after execution together with
an optional error, so that mutations committed before a failed assertion
remain visible, exactly as they do on the Python object.
-/

namespace HoneybeeRadiance

/-- Error taxonomy of the spec: a single validation error suffices for the
claims under study (assert failures and option-value rejections). -/
inductive RadError where
  | validation
  deriving DecidableEq

variable {α : Type} [LinearOrderedField α]

/-- State of a View object (view.py lines 47-106).  The option wrappers are
flattened: `position`, `direction`, `up_vector` are the tuple values,
`h_size`, `v_size` the numeric values (always set: the constructor default
is 60 and the public setters never unset them; a dictionary built without a
vh entry leaves the NumericOption unset in the source, which we model as
the documented default 60 since no behaviour under study observes the
difference), `shift`, `lift`, `fore_clip`, `aft_clip` the nullable numeric
options, and `type` the single-character code held by the StringOptionJoined
wrapper. -/
structure View (α : Type) where
  name : String
  position : α × α × α
  direction : α × α × α
  up_vector : α × α × α
  type : String
  h_size : α
  v_size : α
  shift : Option α
  lift : Option α
  fore_clip : Option α
  aft_clip : Option α
  deriving DecidableEq

/-- Cast of a parsed 3-component value into a tuple, as TupleOption does;
a list of any other length would be rejected by the wrapper (unreachable in
the flows studied here). -/
def tripleOfList (l : List α) : α × α × α :=
  match l with
  | [a, b, c] => (a, b, c)
  | _ => (0, 0, 0)

/-- View.__init__ (view.py lines 47-106): positional defaults
(0,0,0) / (0,0,1) / (0,1,0) are substituted for missing vectors exactly as
the source writes `position if position is not None else (0, 0, 0)`;
h_size and v_size default to 60; fore_clip and aft_clip start unset.
The type code is stored as given (always a member of the valid list in the
flows studied; from_dict never forwards a type, so the default "v" is what
reaches this constructor there). -/
def viewInit (name : String) (position direction up_vector : Option (List α))
    (type : String) (h_size v_size shift lift : Option α) : View α :=
  { name := name
    position := tripleOfList (position.getD [0, 0, 0])
    direction := tripleOfList (direction.getD [0, 0, 1])
    up_vector := tripleOfList (up_vector.getD [0, 1, 0])
    type := type
    h_size := h_size.getD 60
    v_size := v_size.getD 60
    shift := shift
    lift := lift
    fore_clip := none
    aft_clip := none }

/-- h_size setter (view.py lines 227-229): `value if value is not None
else 60`, then the NumericOption with min_value=0 rejects negatives. -/
def set_h_size (v : View α) (value : Option α) : View α × Option RadError :=
  let x := value.getD 60
  if 0 ≤ x then ({ v with h_size := x }, none) else (v, some RadError.validation)

/-- v_size setter (view.py lines 246-248), same shape as the h_size one. -/
def set_v_size (v : View α) (value : Option α) : View α × Option RadError :=
  let x := value.getD 60
  if 0 ≤ x then ({ v with v_size := x }, none) else (v, some RadError.validation)

/-- Fisheye predicate (view.py lines 117-120): type is one of h, a, s. -/
def is_fisheye (v : View α) : Prop :=
  v.type = "h" ∨ v.type = "a" ∨ v.type = "s"

instance (v : View α) : Decidable (is_fisheye v) := by
  unfold is_fisheye; infer_instance

/-- Type setter (view.py lines 138-157).  The source first writes
`self._type.value = value[-1:]` (after the StringOptionJoined wrapper checks
the code against its valid list), and only then runs the per-type side
effects: a fisheye code overwrites both sizes with 180 through the size
setters (the min_value=0 check trivially passes for 180, so the direct
field update below is equivalent); the perspective code asserts both sizes
are below 180 and raises otherwise - note that the type field has already
been mutated when that assert fires, and the returned state reflects it. -/
def set_type (v : View α) (value : String) : View α × Option RadError :=
  let t := value.takeRight 1
  if t ∈ ["v", "h", "l", "c", "a", "s"] then
    let v1 : View α := { v with type := t }
    if t = "h" ∨ t = "a" ∨ t = "s" then
      let v2 := if v1.h_size ≠ 180 then { v1 with h_size := (180 : α) } else v1
      let v3 := if v2.v_size ≠ 180 then { v2 with v_size := (180 : α) } else v2
      (v3, none)
    else if t = "v" then
      if v1.h_size < 180 then
        if v1.v_size < 180 then (v1, none) else (v1, some RadError.validation)
      else (v1, some RadError.validation)
    else (v1, none)
  else (v, some RadError.validation)

/-- Modelled from the spec: `translate(view, vector): position := position +
vector` (spec section 4.5).  View.move (view.py lines 591-594) delegates the
sum to ladybug_geometry Point3D.move, which is outside this repository; the
spec pins it to componentwise vector addition.  Only the position field of
the view is written back. -/
def move (v : View α) (vector : α × α × α) : View α :=
  { v with position := (v.position.1 + vector.1, v.position.2.1 + vector.2.1,
      v.position.2.2 + vector.2.2) }

/-- Token for one nullable numeric option in the serialized stream: an unset
option contributes nothing (view.py to_radiance, lines 546-555). -/
def optTokens (flag : String) (o : Option α) : List (String × List α) :=
  match o with
  | some x => [(flag, [x])]
  | none => []

/-- Token stream of View.to_radiance (view.py lines 546-555) as recovered by
the shared option parser (an out-of-scope collaborator; spec sections 4.2
and 6): fixed flag order vt, vp, vd, vu, vh, vv, vs, vl, vo, va; the type
flag is emitted joined with its value (so a perspective view yields the
option name "vtv" with no arguments); unset options are omitted. -/
def serializeOptions (v : View α) : List (String × List α) :=
  ("vt" ++ v.type, []) ::
  ("vp", [v.position.1, v.position.2.1, v.position.2.2]) ::
  ("vd", [v.direction.1, v.direction.2.1, v.direction.2.2]) ::
  ("vu", [v.up_vector.1, v.up_vector.2.1, v.up_vector.2.2]) ::
  ("vh", [v.h_size]) :: ("vv", [v.v_size]) ::
  (optTokens "vs" v.shift ++ optTokens "vl" v.lift ++
   optTokens "vo" v.fore_clip ++ optTokens "va" v.aft_clip)

/-- The base dictionary built by View.from_string (view.py lines 368-380):
every field starts absent except the name. -/
structure ViewDict (α : Type) where
  name : String
  position : Option (List α)
  direction : Option (List α)
  up_vector : Option (List α)
  h_size : Option α
  v_size : Option α
  shift : Option α
  lift : Option α
  type : Option String
  fore_clip : Option α
  aft_clip : Option α
  deriving DecidableEq

/-- Empty base dictionary of from_string (view.py lines 368-380). -/
def emptyDict (name : String) : ViewDict α :=
  { name := name, position := none, direction := none, up_vector := none
    h_size := none, v_size := none, shift := none, lift := none
    type := none, fore_clip := none, aft_clip := none }

/-- Loop body of View.from_string (view.py lines 385-391): options named in
the mapper update the matching dictionary entry; any other option whose name
begins with vt is stored whole under the type key; everything else is
ignored (with a printed diagnostic in the source). -/
def fromStringStep (b : ViewDict α) (p : String × List α) : ViewDict α :=
  if p.1 = "vp" then { b with position := some p.2 }
  else if p.1 = "vd" then { b with direction := some p.2 }
  else if p.1 = "vu" then { b with up_vector := some p.2 }
  else if p.1 = "vh" then { b with h_size := p.2.head? }
  else if p.1 = "vv" then { b with v_size := p.2.head? }
  else if p.1 = "vs" then { b with shift := p.2.head? }
  else if p.1 = "vl" then { b with lift := p.2.head? }
  else if p.1 = "vo" then { b with fore_clip := p.2.head? }
  else if p.1 = "va" then { b with aft_clip := p.2.head? }
  else if p.1.take 2 = "vt" then { b with type := some p.1 }
  else b

/-- View.from_dict (view.py lines 335-353).  The source constructs the view
passing name, position, direction, up_vector, h_size, v_size, shift and
lift, and afterwards assigns fore_clip and aft_clip through their setters
(which carry no constraint).  The dictionary's type entry is never read, so
the constructor default "v" is what every from_dict view ends up with. -/
def from_dict (d : ViewDict α) : View α :=
  let v := viewInit d.name d.position d.direction d.up_vector "v"
    d.h_size d.v_size d.shift d.lift
  { v with fore_clip := d.fore_clip, aft_clip := d.aft_clip }

/-- View.from_string (view.py lines 355-393) applied to an already-tokenized
option stream (tokenizing is the out-of-scope parser collaborator): fold the
mapper over the options, then hand the dictionary to from_dict. -/
def fromStringOpts (name : String) (opts : List (String × List α)) : View α :=
  from_dict (opts.foldl fromStringStep (emptyDict name))

/-- Per-cell shift offset of View.grid (view.py lines 520-524): zero when
there is a single column, otherwise `((i mod x_div) / (x_div - 1) - 0.5) *
(x_div - 1)`. -/
def gridShift (x_div i : ℕ) : α :=
  if x_div = 1 then 0
  else (((i % x_div : ℕ) : α) / ((x_div : α) - 1) - 1 / 2) * ((x_div : α) - 1)

/-- Per-cell lift offset of View.grid (view.py lines 526-530): zero when
there is a single row, otherwise the source computes the row index as
`int(view_count / y_div_count)` - integer division of the cell index by the
ROW count y_div, not by the column count. -/
def gridLift (y_div i : ℕ) : α :=
  if y_div = 1 then 0
  else (((i / y_div : ℕ) : α) / ((y_div : α) - 1) - 1 / 2) * ((y_div : α) - 1)

/-- Per-projection sub-view sizes of View.grid (view.py lines 494-515).
For a parallel view the sizes are divided linearly; for a perspective view
the source computes `_vh = (2*180/pi) * atan(((pi/180/2) * h_size) /
x_div)` - the horizontal half-angle is NOT passed through tan before the
division, while the vertical formula `_vv = (2*180/pi) *
atan(tan((pi/180/2) * v_size) / y_div)` is; the fisheye branch applies sin
to both half-angles.  An unsupported type yields none (the source prints a
diagnostic and returns the original view). -/
noncomputable def gridSizes (v : View ℝ) (x_div y_div : ℕ) : Option (ℝ × ℝ) :=
  if v.type = "l" then
    some (v.h_size / (x_div : ℝ), v.v_size / (y_div : ℝ))
  else if v.type = "v" then
    some ((2 * 180 / Real.pi) *
            Real.arctan ((Real.pi / 180 / 2 * v.h_size) / (x_div : ℝ)),
          (2 * 180 / Real.pi) *
            Real.arctan (Real.tan (Real.pi / 180 / 2 * v.v_size) / (y_div : ℝ)))
  else if is_fisheye v then
    some ((2 * 180 / Real.pi) *
            Real.arcsin (Real.sin (Real.pi / 180 / 2 * v.h_size) / (x_div : ℝ)),
          (2 * 180 / Real.pi) *
            Real.arcsin (Real.sin (Real.pi / 180 / 2 * v.v_size) / (y_div : ℝ)))
  else none

/-- The sub-view list built by the loop of View.grid (view.py lines
517-544): cell i is a freshly constructed default View (position, direction,
up vector and type are NOT copied from the parent - the constructor call
passes only the name `parent_i`) whose sizes are then set to the computed
vh and vv and whose shift and lift are set to the per-cell offsets. -/
noncomputable def gridSubviews (v : View ℝ) (x_div y_div : ℕ) (vh vv : ℝ) :
    List (View ℝ) :=
  (List.range (x_div * y_div)).map fun i =>
    { viewInit (v.name ++ "_" ++ toString i) none none none "v"
        none none none none with
      h_size := vh, v_size := vv,
      shift := some (gridShift x_div i), lift := some (gridLift y_div i) }

/-- View.grid (view.py lines 468-544).  Division counts are taken by
absolute value; a zero product is a validation error; the 1x1 split returns
the original view; an unsupported projection returns the original view as a
singleton.  The size assignments in the loop go through the h_size and
v_size setters whose min_value=0 check rejects a negative computed size -
that check is hoisted out of the loop here (the computed sizes are the same
for every cell, so the first iteration would raise in the source). -/
noncomputable def grid (v : View ℝ) (x_div_count y_div_count : ℤ) :
    Except RadError (List (View ℝ)) :=
  if x_div_count.natAbs * y_div_count.natAbs = 0 then
    Except.error RadError.validation
  else if x_div_count.natAbs = 1 ∧ y_div_count.natAbs = 1 then Except.ok [v]
  else
    match gridSizes v x_div_count.natAbs y_div_count.natAbs with
    | none => Except.ok [v]
    | some (vh, vv) =>
      if 0 ≤ vh ∧ 0 ≤ vv then
        Except.ok (gridSubviews v x_div_count.natAbs y_div_count.natAbs vh vv)
      else Except.error RadError.validation

/-- Python's round as used by dimension_x_y (half away from zero, the
behaviour of the Python 2 builtin this source targets), followed by int(). -/
noncomputable def pyRound (x : ℝ) : ℤ :=
  if 0 ≤ x then ⌊x + 1 / 2⌋ else ⌈x - 1 / 2⌉

/-- Aspect ratio of View.dimension_x_y (view.py lines 441-448): angular
ratio `tan(radians(h)/2) / tan(radians(v)/2)` for a perspective view, the
linear ratio `h / v` for the other non-fisheye types. -/
noncomputable def ratioHV (v : View ℝ) : ℝ :=
  if v.type = "v" then
    Real.tan (v.h_size * Real.pi / 180 / 2) / Real.tan (v.v_size * Real.pi / 180 / 2)
  else v.h_size / v.v_size

/-- View.dimension_x_y (view.py lines 429-466): fisheye views are square at
the smaller requested dimension; otherwise scale the smaller axis by the
aspect ratio, and when the scaled value overflows its bound fall back to
scaling the other axis. -/
noncomputable def dimension_x_y (v : View ℝ) (x_res y_res : ℤ) : ℤ × ℤ :=
  if is_fisheye v then (min x_res y_res, min x_res y_res)
  else if y_res ≤ x_res then
    if pyRound (ratioHV v * (y_res : ℝ)) ≤ x_res then
      (pyRound (ratioHV v * (y_res : ℝ)), y_res)
    else (x_res, pyRound ((x_res : ℝ) / ratioHV v))
  else
    if pyRound ((x_res : ℝ) / ratioHV v) ≤ y_res then
      (x_res, pyRound ((x_res : ℝ) / ratioHV v))
    else (pyRound (ratioHV v * (y_res : ℝ)), y_res)

/-- Concrete rational view: a parallel view whose sizes exceed the
perspective limit, used to exercise the type setter failure path. -/
def vBadQ : View ℚ :=
  { name := "bad", position := (0, 0, 0), direction := (0, 0, 1)
    up_vector := (0, 1, 0), type := "l", h_size := 200, v_size := 60
    shift := none, lift := none, fore_clip := none, aft_clip := none }

/-- Concrete rational view: a plain default perspective view. -/
def vDefQ : View ℚ :=
  { name := "def", position := (0, 0, 0), direction := (0, 0, 1)
    up_vector := (0, 1, 0), type := "v", h_size := 60, v_size := 60
    shift := none, lift := none, fore_clip := none, aft_clip := none }

/-- Concrete rational view: a parallel view with default geometry, used for
the serialization round trip. -/
def vParQ : View ℚ :=
  { name := "test", position := (0, 0, 0), direction := (0, 0, 1)
    up_vector := (0, 1, 0), type := "l", h_size := 60, v_size := 60
    shift := none, lift := none, fore_clip := none, aft_clip := none }

/-- Concrete real view: a parallel view with default geometry, used for the
grid lift computations. -/
def vParR : View ℝ :=
  { name := "par", position := (0, 0, 0), direction := (0, 0, 1)
    up_vector := (0, 1, 0), type := "l", h_size := 60, v_size := 60
    shift := none, lift := none, fore_clip := none, aft_clip := none }

/-- Concrete real view: a parallel view positioned away from the origin,
used to show grid sub-views do not inherit the parent geometry. -/
def vPosR : View ℝ :=
  { name := "pos", position := (1, 2, 3), direction := (0, 0, 1)
    up_vector := (0, 1, 0), type := "l", h_size := 60, v_size := 60
    shift := none, lift := none, fore_clip := none, aft_clip := none }

/-- Concrete real view: a default perspective view, used for the grid size
formulas. -/
def vPerspR : View ℝ :=
  { name := "persp", position := (0, 0, 0), direction := (0, 0, 1)
    up_vector := (0, 1, 0), type := "v", h_size := 60, v_size := 60
    shift := none, lift := none, fore_clip := none, aft_clip := none }

/-- Concrete real view: a hemispherical fisheye view, used for the
resolution fitting bound. -/
def vFishR : View ℝ :=
  { name := "fish", position := (0, 0, 0), direction := (0, 0, 1)
    up_vector := (0, 1, 0), type := "h", h_size := 180, v_size := 180
    shift := none, lift := none, fore_clip := none, aft_clip := none }

/-- The claim C9 property as one record equality: only position changes. -/
theorem move_eq (v : View α) (w : α × α × α) :
    move v w = { v with position := (v.position.1 + w.1,
      v.position.2.1 + w.2.1, v.position.2.2 + w.2.2) } := rfl

/-- Claim C9: the translate operation adds the vector to the position and
leaves direction, up-vector and every other field of the view unchanged. -/
theorem c9_move_only_position (v : View α) (w : α × α × α) :
    (move v w).position = (v.position.1 + w.1, v.position.2.1 + w.2.1,
        v.position.2.2 + w.2.2) ∧
    (move v w).direction = v.direction ∧
    (move v w).up_vector = v.up_vector ∧
    (move v w).name = v.name ∧
    (move v w).type = v.type ∧
    (move v w).h_size = v.h_size ∧
    (move v w).v_size = v.v_size ∧
    (move v w).shift = v.shift ∧
    (move v w).lift = v.lift ∧
    (move v w).fore_clip = v.fore_clip ∧
    (move v w).aft_clip = v.aft_clip :=
  ⟨rfl, rfl, rfl, rfl, rfl, rfl, rfl, rfl, rfl, rfl, rfl⟩

/-- Claim C10: assigning None through the h_size or v_size setter succeeds
(no error is produced) and stores the default 60 rather than unsetting the
field. -/
theorem c10_none_means_60 (v : View α) :
    set_h_size v none = ({ v with h_size := 60 }, none) ∧
    set_v_size v none = ({ v with v_size := 60 }, none) := by
  constructor
  · unfold set_h_size
    rw [if_pos]
    · rfl
    · show (0 : α) ≤ Option.getD none 60
      norm_num
  · unfold set_v_size
    rw [if_pos]
    · rfl
    · show (0 : α) ≤ Option.getD none 60
      norm_num

/-- Claim C7: setting the type to any fisheye code succeeds and leaves both
sizes at exactly 180, whatever they were before. -/
theorem c7_fisheye_forces_180 (v : View α) (t : String)
    (ht : t = "h" ∨ t = "a" ∨ t = "s") :
    (set_type v t).1.h_size = 180 ∧ (set_type v t).1.v_size = 180 ∧
    (set_type v t).2 = none := by
  have htr : t.takeRight 1 = t := by
    rcases ht with rfl | rfl | rfl <;> decide
  have hmem : t ∈ ["v", "h", "l", "c", "a", "s"] := by
    rcases ht with rfl | rfl | rfl <;> decide
  unfold set_type
  rw [htr, if_pos hmem, if_pos ht]
  dsimp only
  by_cases h1 : v.h_size ≠ (180 : α)
  · rw [if_pos h1]
    by_cases h2 : v.v_size ≠ (180 : α)
    · rw [if_pos h2]
      exact ⟨rfl, rfl, rfl⟩
    · rw [if_neg h2]
      exact ⟨rfl, not_ne_iff.mp h2, rfl⟩
  · rw [if_neg h1]
    by_cases h2 : v.v_size ≠ (180 : α)
    · rw [if_pos h2]
      exact ⟨not_ne_iff.mp h1, rfl, rfl⟩
    · rw [if_neg h2]
      exact ⟨not_ne_iff.mp h1, not_ne_iff.mp h2, rfl⟩

/-- Witness for claim C7 at a concrete fisheye assignment on the default
perspective view. -/
theorem c7_witness :
    ("a" = "h" ∨ "a" = "a" ∨ "a" = "s") ∧
    ((set_type vDefQ "a").1.h_size = 180 ∧ (set_type vDefQ "a").1.v_size = 180 ∧
      (set_type vDefQ "a").2 = none) :=
  ⟨by decide, c7_fisheye_forces_180 vDefQ "a" (by decide)⟩

/-- Claim C1, counterexample: on a parallel view with h_size 200, assigning
the perspective type fails as claimed, but the failed assignment has already
committed the type mutation - afterwards the type reads "v" although it was
"l" before, refuting the no-partial-mutation part of the claim. -/
theorem c1_counterexample :
    (set_type vBadQ "v").2 = some RadError.validation ∧
    (set_type vBadQ "v").1.type = "v" ∧ vBadQ.type = "l" := by decide

/-- Claim C1 as amended: when either size is at least 180, assigning the
perspective type fails with a validation error and both sizes are unchanged,
but the type field has already been overwritten with "v" when the failure
is raised. -/
theorem c1_perspective_reject_partial (v : View α)
    (h : 180 ≤ v.h_size ∨ 180 ≤ v.v_size) :
    (set_type v "v").2 = some RadError.validation ∧
    (set_type v "v").1.h_size = v.h_size ∧
    (set_type v "v").1.v_size = v.v_size ∧
    (set_type v "v").1.type = "v" := by
  unfold set_type
  rw [show ("v".takeRight 1) = "v" by decide,
    if_pos (show ("v" : String) ∈ ["v", "h", "l", "c", "a", "s"] by decide),
    if_neg (show ¬(("v" : String) = "h" ∨ ("v" : String) = "a" ∨
      ("v" : String) = "s") by decide),
    if_pos (rfl : ("v" : String) = "v")]
  dsimp only
  rcases h with h | h
  · rw [if_neg (not_lt.mpr h)]
    exact ⟨rfl, rfl, rfl, rfl⟩
  · by_cases h1 : v.h_size < (180 : α)
    · rw [if_pos h1, if_neg (not_lt.mpr h)]
      exact ⟨rfl, rfl, rfl, rfl⟩
    · rw [if_neg h1]
      exact ⟨rfl, rfl, rfl, rfl⟩

/-- Witness for the amended claim C1 at the concrete oversized view. -/
theorem c1_witness :
    ((180 : ℚ) ≤ vBadQ.h_size ∨ (180 : ℚ) ≤ vBadQ.v_size) ∧
    ((set_type vBadQ "v").2 = some RadError.validation ∧
      (set_type vBadQ "v").1.h_size = vBadQ.h_size ∧
      (set_type vBadQ "v").1.v_size = vBadQ.v_size ∧
      (set_type vBadQ "v").1.type = "v") :=
  ⟨by decide, c1_perspective_reject_partial vBadQ (by decide)⟩

/-- Claim C4, failing evaluation: serializing a parallel view and parsing
the result back under the same name yields a DIFFERENT view - the parsed
view has the constructor default type "v" because from_dict never reads the
type entry that from_string captured, so the round trip loses the
projection type. -/
theorem c4_roundtrip_loses_type :
    fromStringOpts "test" (serializeOptions vParQ) ≠ vParQ ∧
    (fromStringOpts "test" (serializeOptions vParQ)).type = "v" ∧
    vParQ.type = "l" := by decide

/-- Claim C4, sanity part: every field except the projection type does
survive the round trip on this view, isolating the defect to the dropped
type entry. -/
theorem c4_other_fields_survive :
    fromStringOpts "test" (serializeOptions vParQ) = { vParQ with type := "v" } := by
  decide

/-- Claim C8, failing evaluation: a parsed option stream containing the flag
vtl produces a view whose type is the constructor default "v", not the
flag's last character "l" - from_string stores the whole flag under the
type key, and from_dict ignores that key. -/
theorem c8_type_flag_dropped :
    (fromStringOpts "t" ([("vtl", [])] : List (String × List ℚ))).type = "v" ∧
    "vtl".takeRight 1 = "l" ∧ ("v" : String) ≠ "l" := by decide

/-- Claim C8, intermediate dictionary: the from_string fold does capture the
vtl flag (whole, not just the last character) under the type key before
from_dict drops it. -/
theorem c8_flag_captured_then_ignored :
    (([(("vtl" : String), ([] : List ℚ))]).foldl fromStringStep
      (emptyDict "t")).type = some "vtl" := by decide

/-- Arctangent of a nonnegative number is nonnegative. -/
theorem arctanNonneg {x : ℝ} (h : 0 ≤ x) : 0 ≤ Real.arctan x := by
  have hm := Real.arctan_strictMono.monotone h
  simpa [Real.arctan_zero] using hm

/-- Cell i of the sub-view list is the default-constructed view with the
computed sizes and offsets. -/
theorem gridSubviews_getD (v : View ℝ) (x y : ℕ) (vh vv : ℝ) (i : ℕ)
    (hi : i < x * y) :
    (gridSubviews v x y vh vv).getD i v =
      { viewInit (v.name ++ "_" ++ toString i) none none none "v"
          none none none none with
        h_size := vh, v_size := vv,
        shift := some (gridShift x i), lift := some (gridLift y i) } := by
  unfold gridSubviews
  rw [List.getD_eq_getElem _ _ (by simpa using hi), List.getElem_map,
    List.getElem_range]

/-- Evaluation of View.grid in the genuine-split case: when the counts are
not both one, their product is nonzero, the projection is supported (the
size computation succeeds) and the computed sizes pass the nonnegativity
check of the size setters, the result is the sub-view list, and cell i of it
is the default-constructed view carrying the computed sizes and offsets. -/
theorem grid_getD (v : View ℝ) (xd yd : ℤ) (vh vv : ℝ) (i : ℕ)
    (hs : gridSizes v xd.natAbs yd.natAbs = some (vh, vv))
    (h0h : 0 ≤ vh) (h0v : 0 ≤ vv)
    (hnz : xd.natAbs * yd.natAbs ≠ 0)
    (h11 : ¬(xd.natAbs = 1 ∧ yd.natAbs = 1))
    (hi : i < xd.natAbs * yd.natAbs) :
    ((grid v xd yd).toOption.getD []).getD i v =
      { viewInit (v.name ++ "_" ++ toString i) none none none "v"
          none none none none with
        h_size := vh, v_size := vv,
        shift := some (gridShift xd.natAbs i),
        lift := some (gridLift yd.natAbs i) } := by
  unfold grid
  rw [if_neg hnz, if_neg h11, hs]
  dsimp only
  rw [if_pos ⟨h0h, h0v⟩]
  show (gridSubviews v xd.natAbs yd.natAbs vh vv).getD i v = _
  exact gridSubviews_getD v xd.natAbs yd.natAbs vh vv i hi

/-- Claim C3, failing evaluation: splitting a parallel view positioned at
(1,2,3) produces a first cell whose position is the constructor default
(0,0,0) - the parent position (and geometry generally) is not copied,
because the loop builds each cell as View(name) with every other argument
left at its default. -/
theorem c3_subviews_get_default_geometry :
    (((grid vPosR 2 1).toOption.getD []).getD 0 vPosR).position = ((0 : ℝ), 0, 0) ∧
    (((grid vPosR 2 1).toOption.getD []).getD 0 vPosR).direction = ((0 : ℝ), 0, 1) ∧
    vPosR.position = ((1 : ℝ), 2, 3) ∧
    ((1 : ℝ), 2, 3) ≠ (((0 : ℝ), 0, 0) : ℝ × ℝ × ℝ) := by
  have hs : gridSizes vPosR (2 : ℤ).natAbs (1 : ℤ).natAbs = some (30, 60) := by
    norm_num [gridSizes, vPosR]
  rw [grid_getD vPosR 2 1 30 60 0 hs (by norm_num) (by norm_num)
    (by decide) (by decide) (by decide)]
  refine ⟨rfl, rfl, rfl, ?_⟩
  intro h1
  rw [Prod.mk.injEq] at h1
  norm_num at h1

/-- Claim C5 as amended: in any genuine grid split, the lift offset of cell
i uses the row index computed as i div y_count (division by the row count,
as the source writes int(view_count / y_div_count)), not i div x_count. -/
theorem c5_lift_divides_by_y_count (v : View ℝ) (xd yd : ℤ) (vh vv : ℝ) (i : ℕ)
    (hs : gridSizes v xd.natAbs yd.natAbs = some (vh, vv))
    (h0h : 0 ≤ vh) (h0v : 0 ≤ vv)
    (hnz : xd.natAbs * yd.natAbs ≠ 0)
    (h11 : ¬(xd.natAbs = 1 ∧ yd.natAbs = 1))
    (hi : i < xd.natAbs * yd.natAbs)
    (hy : yd.natAbs ≠ 1) :
    (((grid v xd yd).toOption.getD []).getD i v).lift =
      some ((((i / yd.natAbs : ℕ) : ℝ) / ((yd.natAbs : ℝ) - 1) - 1 / 2) *
        ((yd.natAbs : ℝ) - 1)) := by
  rw [grid_getD v xd yd vh vv i hs h0h h0v hnz h11 hi]
  show some (gridLift yd.natAbs i) = _
  unfold gridLift
  rw [if_neg hy]

/-- Witness for the amended claim C5: the 2 by 3 split of a parallel view at
cell index 2. -/
theorem c5_witness :
    (gridSizes vParR (2 : ℤ).natAbs (3 : ℤ).natAbs = some (30, 20) ∧
      (0 : ℝ) ≤ 30 ∧ (0 : ℝ) ≤ 20 ∧ (2 : ℤ).natAbs * (3 : ℤ).natAbs ≠ 0 ∧
      ¬((2 : ℤ).natAbs = 1 ∧ (3 : ℤ).natAbs = 1) ∧
      2 < (2 : ℤ).natAbs * (3 : ℤ).natAbs ∧ (3 : ℤ).natAbs ≠ 1) ∧
    (((grid vParR 2 3).toOption.getD []).getD 2 vParR).lift =
      some ((((2 / (3 : ℤ).natAbs : ℕ) : ℝ) / (((3 : ℤ).natAbs : ℝ) - 1) - 1 / 2) *
        (((3 : ℤ).natAbs : ℝ) - 1)) :=
  ⟨⟨by norm_num [gridSizes, vParR], by norm_num, by norm_num, by decide,
     by decide, by decide, by decide⟩,
   c5_lift_divides_by_y_count vParR 2 3 30 20 2
     (by norm_num [gridSizes, vParR]) (by norm_num) (by norm_num)
     (by decide) (by decide) (by decide) (by decide)⟩

/-- Claim C5, counterexample: in the 2 by 3 split of a parallel view, cell 2
gets lift -1 from the code, while the claimed formula with row = i div
x_count = 2 div 2 = 1 yields 0. -/
theorem c5_counterexample :
    (((grid vParR 2 3).toOption.getD []).getD 2 vParR).lift = some (-1 : ℝ) ∧
    ((((2 / 2 : ℕ) : ℝ) / ((3 : ℝ) - 1) - 1 / 2) * ((3 : ℝ) - 1)) = 0 ∧
    some (-1 : ℝ) ≠ some (0 : ℝ) := by
  refine ⟨?_, by norm_num, by simp⟩
  have hs : gridSizes vParR (2 : ℤ).natAbs (3 : ℤ).natAbs = some (30, 20) := by
    norm_num [gridSizes, vParR]
  rw [grid_getD vParR 2 3 30 20 2 hs (by norm_num) (by norm_num)
    (by decide) (by decide) (by decide)]
  show some (gridLift (3 : ℤ).natAbs 2) = _
  norm_num [gridLift]

/-- Claim C2, failing evaluation: splitting a 60-degree perspective view in
two columns gives a first cell whose horizontal size is
(360/pi) * atan(pi/12) - the code divides the half-angle itself by the
column count - which differs from the claimed formula
(360/pi) * atan(tan(60*pi/360) / 2): the source omits the tan around the
horizontal half-angle that its own vertical formula applies. -/
theorem c2_perspective_vh_missing_tan :
    (((grid vPerspR 2 1).toOption.getD []).getD 0 vPerspR).h_size =
      (360 / Real.pi) * Real.arctan (Real.pi / 12) ∧
    (((grid vPerspR 2 1).toOption.getD []).getD 0 vPerspR).h_size ≠
      (360 / Real.pi) * Real.arctan (Real.tan (60 * Real.pi / 360) / 2) := by
  have hpi := Real.pi_pos
  have h6 : Real.pi / 180 / 2 * (60 : ℝ) = Real.pi / 6 := by ring
  have hs : gridSizes vPerspR (2 : ℤ).natAbs (1 : ℤ).natAbs =
      some ((360 / Real.pi) * Real.arctan (Real.pi / 12),
        (2 * 180 / Real.pi) * Real.arctan (Real.tan (Real.pi / 6))) := by
    unfold gridSizes
    rw [if_neg (by decide : ¬ vPerspR.type = "l"),
      if_pos (by decide : vPerspR.type = "v")]
    have e1 : Real.pi / 180 / 2 * vPerspR.h_size / (((2 : ℤ).natAbs : ℕ) : ℝ) =
        Real.pi / 12 := by
      show Real.pi / 180 / 2 * (60 : ℝ) / ((2 : ℕ) : ℝ) = Real.pi / 12
      push_cast
      ring
    have e2 : Real.tan (Real.pi / 180 / 2 * vPerspR.v_size) /
        (((1 : ℤ).natAbs : ℕ) : ℝ) = Real.tan (Real.pi / 6) := by
      show Real.tan (Real.pi / 180 / 2 * (60 : ℝ)) / ((1 : ℕ) : ℝ) = _
      rw [h6]
      push_cast
      ring
    rw [e1, e2]
    norm_num
  have htanpos : 0 < Real.tan (Real.pi / 6) :=
    Real.tan_pos_of_pos_of_lt_pi_div_two (by linarith) (by linarith)
  have hcell := grid_getD vPerspR 2 1
    ((360 / Real.pi) * Real.arctan (Real.pi / 12))
    ((2 * 180 / Real.pi) * Real.arctan (Real.tan (Real.pi / 6))) 0 hs
    (mul_nonneg (by positivity) (arctanNonneg (by positivity)))
    (mul_nonneg (by positivity) (arctanNonneg (le_of_lt htanpos)))
    (by decide) (by decide) (by decide)
  rw [hcell]
  refine ⟨rfl, ?_⟩
  show (360 / Real.pi) * Real.arctan (Real.pi / 12) ≠ _
  rw [show (60 : ℝ) * Real.pi / 360 = Real.pi / 6 by ring]
  have hlt : Real.pi / 12 < Real.tan (Real.pi / 6) / 2 := by
    have h1 : Real.pi / 6 < Real.tan (Real.pi / 6) :=
      Real.lt_tan (by linarith) (by linarith)
    linarith
  exact ne_of_lt (mul_lt_mul_of_pos_left (Real.arctan_strictMono hlt)
    (by positivity))

/-- Rounding stays at or below n when the argument is below n + 1/2. -/
theorem pyRound_le (n : ℤ) (t : ℝ) (h : t < (n : ℝ) + 1 / 2) : pyRound t ≤ n := by
  unfold pyRound
  split_ifs with h0
  · rw [← Int.lt_add_one_iff, Int.floor_lt]
    push_cast
    linarith
  · rw [Int.ceil_le]
    linarith

/-- If rounding exceeds n then the argument is at least n + 1/2. -/
theorem lt_pyRound (n : ℤ) (t : ℝ) (h : n < pyRound t) : (n : ℝ) + 1 / 2 ≤ t := by
  unfold pyRound at h
  split_ifs at h with h0
  · rw [Int.lt_iff_add_one_le, Int.le_floor] at h
    push_cast at h
    linarith
  · have hc := Int.lt_ceil.mp h
    linarith

/-- Key inequality of the fallback branch: if scaling b by the ratio
overshoots a by at least a half, then scaling a by the inverse ratio
undershoots b + 1/2. -/
theorem div_lt_add_half (a b r : ℝ) (hr : 0 < r) (h : a + 1 / 2 ≤ r * b) :
    a / r < b + 1 / 2 := by
  rw [div_lt_iff₀ hr]
  nlinarith

/-- The aspect ratio is positive for any view satisfying the data-model
invariant (positive sizes, below 180 for a perspective view). -/
theorem ratioHV_pos (v : View ℝ) (hh : 0 < v.h_size) (hv : 0 < v.v_size)
    (hper : v.type = "v" → v.h_size < 180 ∧ v.v_size < 180) : 0 < ratioHV v := by
  unfold ratioHV
  split_ifs with ht
  · obtain ⟨h1, h2⟩ := hper ht
    have hpi := Real.pi_pos
    apply div_pos
    · apply Real.tan_pos_of_pos_of_lt_pi_div_two
      · positivity
      · nlinarith [mul_pos (sub_pos.mpr h1) hpi]
    · apply Real.tan_pos_of_pos_of_lt_pi_div_two
      · positivity
      · nlinarith [mul_pos (sub_pos.mpr h2) hpi]
  · exact div_pos hh hv

/-- Claim C6: for positive requested resolutions and a view satisfying the
data-model invariant on its sizes, the fitted dimensions never exceed the
requested bounds. -/
theorem c6_fit_within_bounds (v : View ℝ) (xr yr : ℤ) (hx : 0 < xr)
    (hy : 0 < yr) (hh : 0 < v.h_size) (hv : 0 < v.v_size)
    (hper : v.type = "v" → v.h_size < 180 ∧ v.v_size < 180) :
    (dimension_x_y v xr yr).1 ≤ xr ∧ (dimension_x_y v xr yr).2 ≤ yr := by
  have hr : 0 < ratioHV v := ratioHV_pos v hh hv hper
  unfold dimension_x_y
  by_cases hf : is_fisheye v
  · rw [if_pos hf]
    exact ⟨min_le_left _ _, min_le_right _ _⟩
  · rw [if_neg hf]
    by_cases hyx : yr ≤ xr
    · rw [if_pos hyx]
      by_cases h1 : pyRound (ratioHV v * (yr : ℝ)) ≤ xr
      · rw [if_pos h1]
        exact ⟨h1, le_refl yr⟩
      · rw [if_neg h1]
        refine ⟨le_refl xr, ?_⟩
        have h2 : (xr : ℝ) + 1 / 2 ≤ ratioHV v * (yr : ℝ) :=
          lt_pyRound xr _ (lt_of_not_le h1)
        exact pyRound_le yr _ (div_lt_add_half _ _ _ hr h2)
    · rw [if_neg hyx]
      by_cases h1 : pyRound ((xr : ℝ) / ratioHV v) ≤ yr
      · rw [if_pos h1]
        exact ⟨le_refl xr, h1⟩
      · rw [if_neg h1]
        refine ⟨?_, le_refl yr⟩
        have h2 : (yr : ℝ) + 1 / 2 ≤ (1 / ratioHV v) * (xr : ℝ) := by
          rw [one_div_mul_eq_div]
          exact lt_pyRound yr _ (lt_of_not_le h1)
        have h3 : (yr : ℝ) / (1 / ratioHV v) < (xr : ℝ) + 1 / 2 :=
          div_lt_add_half _ _ _ (by positivity) h2
        have h4 : ratioHV v * (yr : ℝ) < (xr : ℝ) + 1 / 2 := by
          rwa [div_div_eq_mul_div, mul_comm (yr : ℝ) (ratioHV v),
            mul_div_assoc, div_one] at h3
        exact pyRound_le xr _ h4

/-- Witness for claim C6: the fisheye view fitted into an 800 by 600
request stays within the bounds. -/
theorem c6_witness :
    ((0 : ℤ) < 800 ∧ (0 : ℤ) < 600 ∧ (0 : ℝ) < vFishR.h_size ∧
      (0 : ℝ) < vFishR.v_size ∧
      (vFishR.type = "v" → vFishR.h_size < 180 ∧ vFishR.v_size < 180)) ∧
    ((dimension_x_y vFishR 800 600).1 ≤ 800 ∧
      (dimension_x_y vFishR 800 600).2 ≤ 600) :=
  ⟨⟨by decide, by decide, by norm_num [vFishR], by norm_num [vFishR],
     fun h => absurd h (by decide)⟩,
   c6_fit_within_bounds vFishR 800 600 (by decide) (by decide)
     (by norm_num [vFishR]) (by norm_num [vFishR])
     (fun h => absurd h (by decide))⟩

end HoneybeeRadiance
